import Mathlib

/-!
Shallow embedding of `src/src/jattach.c`, a client for the HotSpot Dynamic
Attach mechanism.  External OS behaviour (the filesystem, signal delivery,
the kernel's chunking of `read`) is passed in explicitly as an environment;
each function returns the values the C code computes together with a trace
of the externally visible OS events it performs.
-/

/-- Result of `stat` on a path: `none` means `stat` failed (path absent),
`some k` gives the kind of filesystem object found there. -/
inductive FileKind where
  | sock
  | regular
  | directory
  | other
deriving DecidableEq, Repr

/-- `S_ISSOCK` on the stat result. -/
def isSock : FileKind → Bool
  | FileKind.sock => true
  | _ => false

/-- `sprintf(path, "/tmp/.java_pid%d", pid)`. -/
def java_pid_path (pid : Int) : String := "/tmp/.java_pid" ++ toString pid

/-- `check_socket`: `stat(path, &stats) == 0 && S_ISSOCK(stats.st_mode)`,
with the filesystem view `fs` passed explicitly. -/
def check_socket (fs : String → Option FileKind) (pid : Int) : Bool :=
  match fs (java_pid_path pid) with
  | some k => isSock k
  | none => false

/-- Externally visible OS events performed by the attach sequence. -/
inductive OsEvent where
  | creat (path : String) (ok : Bool)
  | closeFd
  | kill (pid : Int) (ok : Bool)
  | sleep (secs : Nat)
  | poll (n : Nat) (ready : Bool)
  | unlink (path : String)
deriving DecidableEq, Repr

/-- Environment of `start_attach_mechanism`: whether `creat` succeeds at a
given path, whether `kill(pid, SIGQUIT)` would deliver, and what
`check_socket` observes at the n-th poll of the wait loop (the target's
filesystem state changes asynchronously). -/
structure AttachEnv where
  creatOk : String → Bool
  killOk : Bool
  socketReadyAt : Nat → Bool

/-- `sprintf(path, "/proc/%d/cwd/.attach_pid%d", pid, pid)`. -/
def primary_marker_path (pid : Int) : String :=
  "/proc/" ++ toString pid ++ "/cwd/.attach_pid" ++ toString pid

/-- `sprintf(path, "/tmp/.attach_pid%d", pid)`. -/
def tmp_marker_path (pid : Int) : String := "/tmp/.attach_pid" ++ toString pid

/-- The `do { sleep(1); result = check_socket(pid); } while (!result && ++retry < 10);`
loop.  `k` is the index of the next poll (the value `retry` takes right after
this iteration), `fuel` the number of iterations still allowed; the loop is
entered as `pollLoop ready 1 10`.  The C guard `++retry < 10` holds exactly
when `fuel` remains after this iteration, i.e. `fuel ≠ 0` in the successor
pattern below. -/
def pollLoop (ready : Nat → Bool) : Nat → Nat → List OsEvent × Bool
  | _, 0 => ([], false)
  | k, fuel + 1 =>
    let r := ready k
    if r = true ∨ fuel = 0 then
      ([OsEvent.sleep 1, OsEvent.poll k r], r)
    else
      let rest := pollLoop ready (k + 1) fuel
      (OsEvent.sleep 1 :: OsEvent.poll k r :: rest.1, rest.2)

/-- `start_attach_mechanism`: create the marker at the primary location,
falling back to `/tmp`; on success `close` the fd, `kill(pid, SIGQUIT)`
(return value ignored by the C code, recorded in the trace), run the wait
loop, `unlink` the marker, and return the loop's result. -/
def start_attach_mechanism (env : AttachEnv) (pid : Int) : List OsEvent × Bool :=
  let p1 := primary_marker_path pid
  let p2 := tmp_marker_path pid
  if env.creatOk p1 then
    let lp := pollLoop env.socketReadyAt 1 10
    (OsEvent.creat p1 true :: OsEvent.closeFd :: OsEvent.kill pid env.killOk ::
      (lp.1 ++ [OsEvent.unlink p1]), lp.2)
  else if env.creatOk p2 then
    let lp := pollLoop env.socketReadyAt 1 10
    (OsEvent.creat p1 false :: OsEvent.creat p2 true :: OsEvent.closeFd ::
      OsEvent.kill pid env.killOk :: (lp.1 ++ [OsEvent.unlink p2]), lp.2)
  else
    ([OsEvent.creat p1 false, OsEvent.creat p2 false], false)

/-- A C string as written by `write(fd, s, strlen(s) + 1)`: the bytes of `s`
followed by one null byte. -/
def cstr (s : String) : List Nat := s.toList.map Char.toNat ++ [0]

/-- `write_command`: one write of `"1"` with its null terminator
(`write(fd, "1", 2)`), then for `i = 0..3` one write of argument `i`
(or of `""` when `i ≥ argc`) with its null terminator.  The result is the
list of discrete writes, each a byte list. -/
def write_command (args : List String) : List (List Nat) :=
  cstr "1" :: (List.range 4).map fun i => cstr (args.getD i "")

/-- Behaviour of one `read(fd, buf, 1024)` call chosen by the kernel:
either it has `size` bytes available (the call returns
`min size 1024` of the remaining stream, or 0 at end of stream),
or it fails with an error (returns -1). -/
inductive ReadEv where
  | chunk (size : Nat)
  | err
deriving DecidableEq, Repr

/-- `read_response`: `while ((bytes = read(fd, buf, 1024)) > 0) write(1, buf, bytes);`.
The loop exits as soon as `read` returns 0 (stream drained or a zero-size
event) or -1 (error); the bytes forwarded to stdout are returned. -/
def read_response : List ReadEv → List Nat → List Nat
  | [], _ => []
  | ReadEv.err :: _, _ => []
  | ReadEv.chunk s :: rest, stream =>
    let n := min s 1024
    let c := stream.take n
    if c.isEmpty then [] else c ++ read_response rest (stream.drop n)

/-- `isspace` as used by `atoi`. -/
def isSpaceC (c : Char) : Bool :=
  c = ' ' || c = '\t' || c = '\n' || c = '\x0b' || c = '\x0c' || c = '\r'

/-- Decimal accumulation of leading digits, stopping at the first non-digit. -/
def atoiDigits : List Char → Nat → Nat
  | [], acc => acc
  | c :: rest, acc =>
    if '0' ≤ c ∧ c ≤ '9' then atoiDigits rest (acc * 10 + (c.toNat - 48)) else acc

/-- C `atoi`: skip leading whitespace, optional sign, then leading digits;
a string with no leading digits yields 0. -/
def atoi (s : String) : Int :=
  match s.toList.dropWhile isSpaceC with
  | '-' :: rest => -(atoiDigits rest 0 : Int)
  | '+' :: rest => (atoiDigits rest 0 : Int)
  | cs => (atoiDigits cs 0 : Int)

/-- Full environment for `main`: initial filesystem view for the first
`check_socket`, the attach-mechanism environment, whether `connect` on the
socket succeeds, and the kernel's behaviour for the response reads. -/
structure Env where
  fs : String → Option FileKind
  creatOk : String → Bool
  killOk : Bool
  socketReadyAt : Nat → Bool
  connectOk : Bool
  readEvs : List ReadEv
  stream : List Nat

/-- The attach-mechanism part of a `main` environment. -/
def attachEnvOf (env : Env) : AttachEnv :=
  { creatOk := env.creatOk, killOk := env.killOk, socketReadyAt := env.socketReadyAt }

/-- Observable outcome of one invocation: bytes printed to stdout, the
process exit code, the OS events of the attach sequence, and the discrete
writes of the request sent over the socket (empty when no connection was
made). -/
structure MainResult where
  stdout : List Nat
  exitCode : Nat
  events : List OsEvent
  requestWrites : List (List Nat)
deriving DecidableEq, Repr

/-- Bytes of an ASCII string literal as `printf` emits them. -/
def strBytes (s : String) : List Nat := s.toList.map Char.toNat

def usage_msg : List Nat := strBytes "Usage: jattach <pid> <cmd> <args> ...\n"

def attach_fail_msg : List Nat := strBytes "Could not start attach mechanism\n"

def connect_fail_msg : List Nat := strBytes "Could not connect to socket\n"

def connected_msg : List Nat := strBytes "Connected to remove JVM\n"

/-- `main`: usage check, `atoi` of the pid argument,
`!check_socket(pid) && !start_attach_mechanism(pid)` (short-circuit: a live
channel skips activation), `connect_socket`, then the connected banner, the
request, the relayed response and a trailing newline, exiting 0. -/
def jattach_main (env : Env) (args : List String) : MainResult :=
  if args.length < 3 then
    { stdout := usage_msg, exitCode := 1, events := [], requestWrites := [] }
  else
    let pid := atoi (args.getD 1 "")
    let att :=
      if check_socket env.fs pid then ([], true)
      else start_attach_mechanism (attachEnvOf env) pid
    if att.2 = false then
      { stdout := attach_fail_msg, exitCode := 1, events := att.1, requestWrites := [] }
    else if env.connectOk = false then
      { stdout := connect_fail_msg, exitCode := 1, events := att.1, requestWrites := [] }
    else
      { stdout := connected_msg ++ read_response env.readEvs env.stream ++ strBytes "\n",
        exitCode := 0,
        events := att.1,
        requestWrites := write_command (args.drop 2) }

/-- Poll events in a trace. -/
def isPollEv : OsEvent → Bool
  | OsEvent.poll _ _ => true
  | _ => false

def pollCount (evs : List OsEvent) : Nat := (evs.filter isPollEv).length

/-- One-second sleep events in a trace. -/
def isSleepOne : OsEvent → Bool
  | OsEvent.sleep 1 => true
  | _ => false

def sleepOneCount (evs : List OsEvent) : Nat := (evs.filter isSleepOne).length

/-- Paths of successful marker creations in a trace. -/
def createdOk (evs : List OsEvent) : List String :=
  evs.filterMap fun e => match e with
    | OsEvent.creat p true => some p
    | _ => none

/-- Paths of `unlink` calls in a trace. -/
def unlinkedPaths (evs : List OsEvent) : List String :=
  evs.filterMap fun e => match e with
    | OsEvent.unlink p => some p
    | _ => none

/-- Environment with a live channel for pid 42 and a read that fails after
one delivered byte. -/
def envC1 : Env :=
  { fs := fun p => if p = java_pid_path 42 then some FileKind.sock else none
    creatOk := fun _ => false
    killOk := true
    socketReadyAt := fun _ => false
    connectOk := true
    readEvs := [ReadEv.chunk 1, ReadEv.err]
    stream := [88, 89] }

/-- Attach environment in which the marker is creatable, signal delivery
fails, and the channel never appears. -/
def envC2 : AttachEnv :=
  { creatOk := fun _ => true, killOk := false, socketReadyAt := fun _ => false }

/-- Attach environment with successful delivery, for comparison. -/
def envC2w : AttachEnv :=
  { creatOk := fun _ => true, killOk := true, socketReadyAt := fun _ => false }

/-- Filesystem with nothing at any path. -/
def fsAbsent : String → Option FileKind := fun _ => none

/-- Filesystem with an ordinary file where pid 42's channel would live. -/
def fsWrongKind : String → Option FileKind :=
  fun p => if p = java_pid_path 42 then some FileKind.regular else none

/-- Environment with a live channel for pid 42 and an empty response. -/
def envC3 : Env :=
  { fs := fun p => if p = java_pid_path 42 then some FileKind.sock else none
    creatOk := fun _ => false
    killOk := true
    socketReadyAt := fun _ => false
    connectOk := true
    readEvs := []
    stream := [] }

/-- The request bytes the spec's scenario A claims for `threaddump`:
`'1' NUL t h r e a d d u m p NUL NUL NUL` (three trailing fields only). -/
def claimed_threaddump_bytes : List Nat :=
  [49, 0, 116, 104, 114, 101, 97, 100, 100, 117, 109, 112, 0, 0, 0]

/-- The request bytes the code actually writes for `threaddump`:
`'1' NUL t h r e a d d u m p NUL NUL NUL NUL` (command plus three empty
argument fields, four fields in total after the version). -/
def actual_threaddump_bytes : List Nat :=
  [49, 0, 116, 104, 114, 101, 97, 100, 100, 117, 109, 112, 0, 0, 0, 0]

/-- Attach environment whose channel first appears at the third poll. -/
def envC5w : AttachEnv :=
  { creatOk := fun _ => true, killOk := true, socketReadyAt := fun m => m == 3 }

/-- Attach environment where creation succeeds and the channel never
appears (timeout path). -/
def envC6w : AttachEnv :=
  { creatOk := fun _ => true, killOk := true, socketReadyAt := fun _ => false }

/-- Environment with a live channel for pid 42 and a two-chunk response. -/
def envC9w : Env :=
  { fs := fun p => if p = java_pid_path 42 then some FileKind.sock else none
    creatOk := fun _ => false
    killOk := true
    socketReadyAt := fun _ => false
    connectOk := true
    readEvs := [ReadEv.chunk 1, ReadEv.chunk 1]
    stream := [79, 75] }

/-- Environment with no channel anywhere, creatable markers, and a target
identifier that does not exist (delivery would fail). -/
def envC10w : Env :=
  { fs := fun _ => none
    creatOk := fun _ => true
    killOk := false
    socketReadyAt := fun _ => false
    connectOk := false
    readEvs := []
    stream := [] }

@[simp] theorem pollCount_nil : pollCount [] = 0 := rfl

@[simp] theorem pollCount_cons_sleep (s : Nat) (l : List OsEvent) :
    pollCount (OsEvent.sleep s :: l) = pollCount l := rfl

@[simp] theorem pollCount_cons_poll (n : Nat) (r : Bool) (l : List OsEvent) :
    pollCount (OsEvent.poll n r :: l) = pollCount l + 1 := rfl

@[simp] theorem pollCount_cons_creat (p : String) (b : Bool) (l : List OsEvent) :
    pollCount (OsEvent.creat p b :: l) = pollCount l := rfl

@[simp] theorem pollCount_cons_closeFd (l : List OsEvent) :
    pollCount (OsEvent.closeFd :: l) = pollCount l := rfl

@[simp] theorem pollCount_cons_kill (pid : Int) (b : Bool) (l : List OsEvent) :
    pollCount (OsEvent.kill pid b :: l) = pollCount l := rfl

@[simp] theorem pollCount_cons_unlink (p : String) (l : List OsEvent) :
    pollCount (OsEvent.unlink p :: l) = pollCount l := rfl

@[simp] theorem pollCount_append (a b : List OsEvent) :
    pollCount (a ++ b) = pollCount a + pollCount b := by
  simp [pollCount, List.filter_append]

@[simp] theorem sleepOneCount_nil : sleepOneCount [] = 0 := rfl

@[simp] theorem sleepOneCount_cons_sleep1 (l : List OsEvent) :
    sleepOneCount (OsEvent.sleep 1 :: l) = sleepOneCount l + 1 := rfl

@[simp] theorem sleepOneCount_cons_poll (n : Nat) (r : Bool) (l : List OsEvent) :
    sleepOneCount (OsEvent.poll n r :: l) = sleepOneCount l := rfl

@[simp] theorem sleepOneCount_cons_creat (p : String) (b : Bool) (l : List OsEvent) :
    sleepOneCount (OsEvent.creat p b :: l) = sleepOneCount l := rfl

@[simp] theorem sleepOneCount_cons_closeFd (l : List OsEvent) :
    sleepOneCount (OsEvent.closeFd :: l) = sleepOneCount l := rfl

@[simp] theorem sleepOneCount_cons_kill (pid : Int) (b : Bool) (l : List OsEvent) :
    sleepOneCount (OsEvent.kill pid b :: l) = sleepOneCount l := rfl

@[simp] theorem sleepOneCount_cons_unlink (p : String) (l : List OsEvent) :
    sleepOneCount (OsEvent.unlink p :: l) = sleepOneCount l := rfl

@[simp] theorem sleepOneCount_append (a b : List OsEvent) :
    sleepOneCount (a ++ b) = sleepOneCount a + sleepOneCount b := by
  simp [sleepOneCount, List.filter_append]

@[simp] theorem createdOk_nil : createdOk [] = [] := rfl

@[simp] theorem createdOk_cons_creat_true (p : String) (l : List OsEvent) :
    createdOk (OsEvent.creat p true :: l) = p :: createdOk l := rfl

@[simp] theorem createdOk_cons_creat_false (p : String) (l : List OsEvent) :
    createdOk (OsEvent.creat p false :: l) = createdOk l := rfl

@[simp] theorem createdOk_cons_sleep (s : Nat) (l : List OsEvent) :
    createdOk (OsEvent.sleep s :: l) = createdOk l := rfl

@[simp] theorem createdOk_cons_poll (n : Nat) (r : Bool) (l : List OsEvent) :
    createdOk (OsEvent.poll n r :: l) = createdOk l := rfl

@[simp] theorem createdOk_cons_closeFd (l : List OsEvent) :
    createdOk (OsEvent.closeFd :: l) = createdOk l := rfl

@[simp] theorem createdOk_cons_kill (pid : Int) (b : Bool) (l : List OsEvent) :
    createdOk (OsEvent.kill pid b :: l) = createdOk l := rfl

@[simp] theorem createdOk_cons_unlink (p : String) (l : List OsEvent) :
    createdOk (OsEvent.unlink p :: l) = createdOk l := rfl

@[simp] theorem createdOk_append (a b : List OsEvent) :
    createdOk (a ++ b) = createdOk a ++ createdOk b := by
  simp [createdOk, List.filterMap_append]

@[simp] theorem unlinkedPaths_nil : unlinkedPaths [] = [] := rfl

@[simp] theorem unlinkedPaths_cons_unlink (p : String) (l : List OsEvent) :
    unlinkedPaths (OsEvent.unlink p :: l) = p :: unlinkedPaths l := rfl

@[simp] theorem unlinkedPaths_cons_creat (p : String) (b : Bool) (l : List OsEvent) :
    unlinkedPaths (OsEvent.creat p b :: l) = unlinkedPaths l := by
  cases b <;> rfl

@[simp] theorem unlinkedPaths_cons_sleep (s : Nat) (l : List OsEvent) :
    unlinkedPaths (OsEvent.sleep s :: l) = unlinkedPaths l := rfl

@[simp] theorem unlinkedPaths_cons_poll (n : Nat) (r : Bool) (l : List OsEvent) :
    unlinkedPaths (OsEvent.poll n r :: l) = unlinkedPaths l := rfl

@[simp] theorem unlinkedPaths_cons_closeFd (l : List OsEvent) :
    unlinkedPaths (OsEvent.closeFd :: l) = unlinkedPaths l := rfl

@[simp] theorem unlinkedPaths_cons_kill (pid : Int) (b : Bool) (l : List OsEvent) :
    unlinkedPaths (OsEvent.kill pid b :: l) = unlinkedPaths l := rfl

@[simp] theorem unlinkedPaths_append (a b : List OsEvent) :
    unlinkedPaths (a ++ b) = unlinkedPaths a ++ unlinkedPaths b := by
  simp [unlinkedPaths, List.filterMap_append]

/-- If the channel never appears, the wait loop spends all of its fuel,
polling once per iteration, and reports failure. -/
theorem pollLoop_spec_never (ready : Nat → Bool) (hnever : ∀ n, ready n = false) :
    ∀ fuel k, 1 ≤ fuel →
      (pollLoop ready k fuel).2 = false ∧ pollCount (pollLoop ready k fuel).1 = fuel := by
  intro fuel
  induction fuel with
  | zero => intro k h; omega
  | succ f ih =>
    intro k _
    by_cases hf : f = 0
    · subst hf
      simp [pollLoop, hnever k]
    · have h2 := ih (k + 1) (by omega)
      simp only [pollLoop, hnever k]
      rw [if_neg (by simp [hf])]
      simp only [pollCount_cons_sleep, pollCount_cons_poll]
      exact ⟨h2.1, by omega⟩

/-- If the channel first appears at poll `n` within the budget, the loop
stops right there with success, having polled `n - k + 1` times. -/
theorem pollLoop_spec_first (ready : Nat → Bool) :
    ∀ fuel k n, k ≤ n → n < k + fuel → ready n = true →
      (∀ m, k ≤ m → m < n → ready m = false) →
      (pollLoop ready k fuel).2 = true ∧
      pollCount (pollLoop ready k fuel).1 = n - k + 1 := by
  intro fuel
  induction fuel with
  | zero => intro k n h1 h2 _ _; omega
  | succ f ih =>
    intro k n h1 h2 h3 h4
    by_cases hk : k = n
    · subst hk
      simp [pollLoop, h3]
    · have hkn : k < n := lt_of_le_of_ne h1 hk
      have hrk : ready k = false := h4 k le_rfl hkn
      have hf : f ≠ 0 := by omega
      have ihr := ih (k + 1) n (by omega) (by omega) h3
        (fun m hm1 hm2 => h4 m (by omega) hm2)
      simp only [pollLoop, hrk]
      rw [if_neg (by simp [hf])]
      simp only [pollCount_cons_sleep, pollCount_cons_poll]
      exact ⟨ihr.1, by omega⟩

/-- The wait loop never polls more often than its fuel allows. -/
theorem pollLoop_count_le (ready : Nat → Bool) :
    ∀ fuel k, pollCount (pollLoop ready k fuel).1 ≤ fuel := by
  intro fuel
  induction fuel with
  | zero => intro k; simp [pollLoop]
  | succ f ih =>
    intro k
    simp only [pollLoop]
    by_cases hc : ready k = true ∨ f = 0
    · rw [if_pos hc]; simp
    · rw [if_neg hc]
      simp only [pollCount_cons_sleep, pollCount_cons_poll]
      have := ih (k + 1)
      omega

/-- Each poll of the wait loop is paired with exactly one one-second sleep. -/
theorem pollLoop_sleep_eq (ready : Nat → Bool) :
    ∀ fuel k, sleepOneCount (pollLoop ready k fuel).1 =
      pollCount (pollLoop ready k fuel).1 := by
  intro fuel
  induction fuel with
  | zero => intro k; simp [pollLoop]
  | succ f ih =>
    intro k
    simp only [pollLoop]
    by_cases hc : ready k = true ∨ f = 0
    · rw [if_pos hc]; simp
    · rw [if_neg hc]
      simp only [sleepOneCount_cons_sleep1, sleepOneCount_cons_poll,
        pollCount_cons_sleep, pollCount_cons_poll]
      rw [ih (k + 1)]

/-- The wait loop touches no marker: it creates and unlinks nothing. -/
theorem pollLoop_no_marker_events (ready : Nat → Bool) :
    ∀ fuel k, createdOk (pollLoop ready k fuel).1 = [] ∧
      unlinkedPaths (pollLoop ready k fuel).1 = [] := by
  intro fuel
  induction fuel with
  | zero => intro k; simp [pollLoop]
  | succ f ih =>
    intro k
    simp only [pollLoop]
    by_cases hc : ready k = true ∨ f = 0
    · rw [if_pos hc]; simp
    · rw [if_neg hc]
      simp only [createdOk_cons_sleep, createdOk_cons_poll,
        unlinkedPaths_cons_sleep, unlinkedPaths_cons_poll]
      exact ih (k + 1)

/-- When marker creation succeeds at the primary or the fallback location,
the attach trace splits into a creation prefix (one successful `creat`, no
`unlink`), the wait loop, and a final `unlink` of the created path; the
returned result is the loop's result. -/
theorem start_attach_split (env : AttachEnv) (pid : Int)
    (hcreat : env.creatOk (primary_marker_path pid) = true ∨
      env.creatOk (tmp_marker_path pid) = true) :
    ∃ pre p,
      (start_attach_mechanism env pid).1 =
        pre ++ ((pollLoop env.socketReadyAt 1 10).1 ++ [OsEvent.unlink p]) ∧
      (start_attach_mechanism env pid).2 = (pollLoop env.socketReadyAt 1 10).2 ∧
      createdOk pre = [p] ∧ unlinkedPaths pre = [] ∧
      pollCount pre = 0 ∧ sleepOneCount pre = 0 := by
  by_cases hp1 : env.creatOk (primary_marker_path pid) = true
  · refine ⟨[OsEvent.creat (primary_marker_path pid) true, OsEvent.closeFd,
      OsEvent.kill pid env.killOk], primary_marker_path pid, ?_, ?_, ?_, ?_, ?_, ?_⟩ <;>
      simp [start_attach_mechanism, hp1]
  · have hp2 : env.creatOk (tmp_marker_path pid) = true := hcreat.resolve_left hp1
    refine ⟨[OsEvent.creat (primary_marker_path pid) false,
      OsEvent.creat (tmp_marker_path pid) true, OsEvent.closeFd,
      OsEvent.kill pid env.killOk], tmp_marker_path pid, ?_, ?_, ?_, ?_, ?_, ?_⟩ <;>
      simp [start_attach_mechanism, hp1, hp2]

/-- When marker creation succeeds, the trace contains one successful
`creat` and the `kill(pid, SIGQUIT)` delivery attempt. -/
theorem start_attach_events_mem (env : AttachEnv) (pid : Int)
    (hcreat : env.creatOk (primary_marker_path pid) = true ∨
      env.creatOk (tmp_marker_path pid) = true) :
    (∃ p, OsEvent.creat p true ∈ (start_attach_mechanism env pid).1) ∧
    OsEvent.kill pid env.killOk ∈ (start_attach_mechanism env pid).1 := by
  by_cases hp1 : env.creatOk (primary_marker_path pid) = true
  · exact ⟨⟨primary_marker_path pid, by simp [start_attach_mechanism, hp1]⟩,
      by simp [start_attach_mechanism, hp1]⟩
  · have hp2 : env.creatOk (tmp_marker_path pid) = true := hcreat.resolve_left hp1
    exact ⟨⟨tmp_marker_path pid, by simp [start_attach_mechanism, hp1, hp2]⟩,
      by simp [start_attach_mechanism, hp1, hp2]⟩

/-- On the connected path (channel live or activation succeeded, connect
succeeded), `main` prints the banner, the relayed response and a newline,
exits 0, and sends the encoded command. -/
theorem jattach_main_connected (env : Env) (args : List String)
    (hlen : 3 ≤ args.length)
    (hatt : check_socket env.fs (atoi (args.getD 1 "")) = true ∨
      (start_attach_mechanism (attachEnvOf env) (atoi (args.getD 1 ""))).2 = true)
    (hconn : env.connectOk = true) :
    (jattach_main env args).stdout =
      connected_msg ++ read_response env.readEvs env.stream ++ strBytes "\n" ∧
    (jattach_main env args).exitCode = 0 ∧
    (jattach_main env args).requestWrites = write_command (args.drop 2) := by
  have h3 : ¬ args.length < 3 := by omega
  simp only [jattach_main]
  rw [if_neg h3]
  by_cases hcs : check_socket env.fs (atoi (args.getD 1 "")) = true
  · rw [if_pos hcs]
    rw [if_neg (by simp : ¬ (([], true) : List OsEvent × Bool).2 = false)]
    rw [if_neg (by simp [hconn])]
    exact ⟨rfl, rfl, rfl⟩
  · rw [if_neg hcs]
    have hst : (start_attach_mechanism (attachEnvOf env) (atoi (args.getD 1 ""))).2 = true :=
      hatt.resolve_left hcs
    rw [if_neg (by rw [hst]; simp)]
    rw [if_neg (by simp [hconn])]
    exact ⟨rfl, rfl, rfl⟩

/-- When the initial `check_socket` is negative, the events of the whole
invocation are exactly those of `start_attach_mechanism`, in every branch. -/
theorem jattach_main_events (env : Env) (args : List String)
    (hlen : 3 ≤ args.length)
    (hcs : check_socket env.fs (atoi (args.getD 1 "")) = false) :
    (jattach_main env args).events =
      (start_attach_mechanism (attachEnvOf env) (atoi (args.getD 1 ""))).1 := by
  have h3 : ¬ args.length < 3 := by omega
  simp only [jattach_main]
  rw [if_neg h3]
  rw [if_neg (show ¬ check_socket env.fs (atoi (args.getD 1 "")) = true by rw [hcs]; simp)]
  split
  · rfl
  · split
    · rfl
    · rfl

/-- Claim C3 counterexample: with a live channel for pid 42 and command
`threaddump` with no extra arguments, the request bytes written to the
connection are not the 15-byte sequence `1\0threaddump\0\0\0` the claim
states: the code writes a fourth trailing null field. -/
theorem c3_counterexample :
    check_socket envC3.fs (atoi "42") = true ∧ envC3.connectOk = true ∧
    (jattach_main envC3 ["jattach", "42", "threaddump"]).requestWrites.flatten ≠
      claimed_threaddump_bytes := by decide

/-- Claim C3 (amended): for an invocation with command `threaddump` and no
extra arguments against a target with a live channel, the request bytes
written to the connection are exactly `1\0threaddump\0\0\0\0`: the version
field, the command field, and three empty argument fields, each
null-terminated. -/
theorem c3_request_bytes (env : Env)
    (h1 : check_socket env.fs 42 = true) (h2 : env.connectOk = true) :
    (jattach_main env ["jattach", "42", "threaddump"]).requestWrites.flatten =
      actual_threaddump_bytes := by
  have ha : atoi "42" = (42 : Int) := by decide
  have h := jattach_main_connected env ["jattach", "42", "threaddump"] (by decide)
    (Or.inl (by rw [show (["jattach", "42", "threaddump"].getD 1 "") = "42" from rfl, ha]; exact h1))
    h2
  rw [h.2.2]
  decide

/-- Claim C3 witness: concrete live-channel environment. -/
theorem c3_request_bytes_witness :
    check_socket envC3.fs 42 = true ∧ envC3.connectOk = true ∧
    (jattach_main envC3 ["jattach", "42", "threaddump"]).requestWrites.flatten =
      actual_threaddump_bytes :=
  ⟨by decide, by decide, c3_request_bytes envC3 (by decide) (by decide)⟩

/-- Claim C4: for every command and up to three argument strings, the
encoded request is the byte `'1'` plus a null byte as one write, then
exactly four null-terminated fields in fixed order (command, arg1, arg2,
arg3), each its own discrete write, any unsupplied field being the empty
string, i.e. a single null byte. -/
theorem c4_request_encoding (cmd : String) (args : List String)
    (_hk : args.length ≤ 3) :
    write_command (cmd :: args) =
      [cstr "1", cstr cmd, cstr (args.getD 0 ""), cstr (args.getD 1 ""),
        cstr (args.getD 2 "")] ∧
    cstr "1" = [49, 0] ∧ cstr "" = [0] :=
  ⟨rfl, rfl, rfl⟩

/-- Claim C4 witness: the `load` command with two supplied arguments. -/
theorem c4_request_encoding_witness :
    (["inst.so", "true"] : List String).length ≤ 3 ∧
    write_command ("load" :: ["inst.so", "true"]) =
      [cstr "1", cstr "load", cstr "inst.so", cstr "true", cstr ""] :=
  ⟨by decide, (c4_request_encoding "load" ["inst.so", "true"] (by decide)).1⟩

/-- Claim C7 counterexample: `check_socket` returns the same plain boolean
`false` when the channel path is absent and when the path holds an
ordinary file, so its result does not distinguish the two not-ready
cases. -/
theorem c7_counterexample :
    check_socket fsAbsent 42 = false ∧
    check_socket fsWrongKind 42 = false ∧
    check_socket fsAbsent 42 = check_socket fsWrongKind 42 := by decide

/-- Claim C7 (amended): the Channel Locator reports not-ready both when
the channel path is absent and when the path exists but is of the wrong
kind, but its boolean result is identical in the two cases, so the
distinction is not observable from its result. -/
theorem c7_not_ready_indistinct (fs1 fs2 : String → Option FileKind) (pid : Int)
    (h1 : fs1 (java_pid_path pid) = none)
    (h2 : ∃ k, fs2 (java_pid_path pid) = some k ∧ isSock k = false) :
    check_socket fs1 pid = false ∧ check_socket fs2 pid = false ∧
    check_socket fs1 pid = check_socket fs2 pid := by
  obtain ⟨k, hk, hks⟩ := h2
  refine ⟨?_, ?_, ?_⟩ <;> simp [check_socket, h1, hk, hks]

/-- Claim C7 witness: absent path versus ordinary file for pid 42. -/
theorem c7_not_ready_indistinct_witness :
    fsAbsent (java_pid_path 42) = none ∧
    (∃ k, fsWrongKind (java_pid_path 42) = some k ∧ isSock k = false) ∧
    check_socket fsAbsent 42 = false ∧ check_socket fsWrongKind 42 = false ∧
    check_socket fsAbsent 42 = check_socket fsWrongKind 42 :=
  ⟨by decide, ⟨FileKind.regular, by decide, by decide⟩,
    c7_not_ready_indistinct fsAbsent fsWrongKind 42 (by decide)
      ⟨FileKind.regular, by decide, by decide⟩⟩

/-- Claim C8: for every response stream the peer delivers as chunks of at
least one byte each, with enough reads to drain the stream before the
close is observed, the relay forwards exactly the stream, byte for byte
and in order. -/
theorem c8_relay_exact (sizes : List Nat) :
    ∀ stream : List Nat, (∀ s ∈ sizes, 1 ≤ s) → stream.length ≤ sizes.length →
      read_response (sizes.map ReadEv.chunk) stream = stream := by
  induction sizes with
  | nil =>
    intro stream _ h2
    have h : stream = [] := List.length_eq_zero.mp (by simpa using h2)
    subst h
    rfl
  | cons s rest ih =>
    intro stream h1 h2
    cases stream with
    | nil => simp [read_response]
    | cons a t =>
      have hs : 1 ≤ s := h1 s (by simp)
      have hmin : 1 ≤ min s 1024 := le_min hs (by omega)
      obtain ⟨m, hm⟩ : ∃ m, min s 1024 = m + 1 := ⟨min s 1024 - 1, by omega⟩
      simp only [List.map_cons, read_response]
      rw [hm]
      simp only [List.take_succ_cons, List.isEmpty_cons, List.drop_succ_cons]
      rw [if_neg (by simp)]
      rw [ih (t.drop m) (fun x hx => h1 x (by simp [hx]))
        (by simp at h2 ⊢; omega)]
      simp [List.take_append_drop]

/-- Claim C8 witness: a five-byte stream delivered in one-byte-capable
reads. -/
theorem c8_relay_exact_witness :
    (∀ s ∈ ([2, 2, 2, 2, 2] : List Nat), 1 ≤ s) ∧
    ([1, 2, 3, 4, 5] : List Nat).length ≤ ([2, 2, 2, 2, 2] : List Nat).length ∧
    read_response (([2, 2, 2, 2, 2] : List Nat).map ReadEv.chunk) [1, 2, 3, 4, 5] =
      [1, 2, 3, 4, 5] :=
  ⟨by decide, by decide,
    c8_relay_exact [2, 2, 2, 2, 2] [1, 2, 3, 4, 5] (by decide) (by decide)⟩

/-- Claim C1 counterexample: with a live channel for pid 42, a connection
established, and the read failing after one delivered byte, the program
prints only the banner, the partial byte and the trailing newline — no
diagnostic — and exits 0, not non-zero. -/
theorem c1_counterexample :
    ReadEv.err ∈ envC1.readEvs ∧
    (jattach_main envC1 ["jattach", "42", "threaddump"]).exitCode = 0 ∧
    (jattach_main envC1 ["jattach", "42", "threaddump"]).stdout =
      connected_msg ++ [88] ++ strBytes "\n" := by decide

/-- Claim C1 (amended): an I/O failure after the connection is established
is not detected: the read loop stops silently, the program emits no
diagnostic (stdout is exactly the banner, the bytes relayed before the
failure, and the trailing newline) and exits with status 0, exactly as on
success. -/
theorem c1_io_error_silent (env : Env) (args : List String)
    (hlen : 3 ≤ args.length)
    (hatt : check_socket env.fs (atoi (args.getD 1 "")) = true ∨
      (start_attach_mechanism (attachEnvOf env) (atoi (args.getD 1 ""))).2 = true)
    (hconn : env.connectOk = true)
    (_herr : ReadEv.err ∈ env.readEvs) :
    (jattach_main env args).exitCode = 0 ∧
    (jattach_main env args).stdout =
      connected_msg ++ read_response env.readEvs env.stream ++ strBytes "\n" := by
  have h := jattach_main_connected env args hlen hatt hconn
  exact ⟨h.2.1, h.1⟩

/-- Claim C1 witness: the concrete failing-read environment. -/
theorem c1_io_error_silent_witness :
    3 ≤ (["jattach", "42", "threaddump"] : List String).length ∧
    check_socket envC1.fs (atoi "42") = true ∧ envC1.connectOk = true ∧
    ReadEv.err ∈ envC1.readEvs ∧
    (jattach_main envC1 ["jattach", "42", "threaddump"]).exitCode = 0 :=
  ⟨by decide, by decide, by decide, by decide,
    (c1_io_error_silent envC1 ["jattach", "42", "threaddump"] (by decide)
      (Or.inl (by decide)) (by decide) (by decide)).1⟩

/-- Claim C2 counterexample: with the marker creatable and signal delivery
failing (`kill` returns -1, e.g. no such process), the Activator still
performs all 10 polling attempts — retries are consumed, contradicting
the claim that no polling occurs on delivery failure. -/
theorem c2_counterexample :
    envC2.killOk = false ∧
    pollCount (start_attach_mechanism envC2 12345).1 = 10 ∧
    (start_attach_mechanism envC2 12345).2 = false ∧
    pollCount (start_attach_mechanism envC2 12345).1 =
      pollCount (start_attach_mechanism envC2w 12345).1 ∧
    (start_attach_mechanism envC2 12345).2 =
      (start_attach_mechanism envC2w 12345).2 := by decide

/-- Claim C2 (amended): the Activator ignores the outcome of signal
delivery: its result and its polling schedule are identical whether
delivery fails or succeeds (so delivery failure is not distinguishable
from a successful delivery the target ignores), and when the channel
never appears it consumes the full 10-poll budget before reporting
activation failure. -/
theorem c2_delivery_ignored (env : AttachEnv) (pid : Int)
    (hnever : ∀ m, env.socketReadyAt m = false) :
    (start_attach_mechanism { env with killOk := false } pid).2 =
      (start_attach_mechanism { env with killOk := true } pid).2 ∧
    pollCount (start_attach_mechanism { env with killOk := false } pid).1 =
      pollCount (start_attach_mechanism { env with killOk := true } pid).1 ∧
    ((env.creatOk (primary_marker_path pid) = true ∨
        env.creatOk (tmp_marker_path pid) = true) →
      (start_attach_mechanism { env with killOk := false } pid).2 = false ∧
      pollCount (start_attach_mechanism { env with killOk := false } pid).1 = 10) := by
  have hlp := pollLoop_spec_never env.socketReadyAt hnever 10 1 (by omega)
  by_cases hp1 : env.creatOk (primary_marker_path pid) = true
  · refine ⟨?_, ?_, fun _ => ⟨?_, ?_⟩⟩ <;>
      simp [start_attach_mechanism, hp1, hlp.1, hlp.2]
  · by_cases hp2 : env.creatOk (tmp_marker_path pid) = true
    · refine ⟨?_, ?_, fun _ => ⟨?_, ?_⟩⟩ <;>
        simp [start_attach_mechanism, hp1, hp2, hlp.1, hlp.2]
    · refine ⟨?_, ?_, fun hcr => ?_⟩
      · simp [start_attach_mechanism, hp1, hp2]
      · simp [start_attach_mechanism, hp1, hp2]
      · rcases hcr with h | h
        · exact absurd h hp1
        · exact absurd h hp2

/-- Claim C2 witness: marker creatable everywhere, channel never appears. -/
theorem c2_delivery_ignored_witness :
    (∀ m, envC2.socketReadyAt m = false) ∧
    (start_attach_mechanism { envC2 with killOk := false } 12345).2 =
      (start_attach_mechanism { envC2 with killOk := true } 12345).2 ∧
    (start_attach_mechanism { envC2 with killOk := false } 12345).2 = false ∧
    pollCount (start_attach_mechanism { envC2 with killOk := false } 12345).1 = 10 := by
  have h := c2_delivery_ignored envC2 12345 (fun m => rfl)
  have h3 := h.2.2 (Or.inl rfl)
  exact ⟨fun m => rfl, h.1, h3.1, h3.2⟩

/-- Claim C5: the activation wait loop sleeps one unit before each poll,
performs at most 10 polls, stops at the first poll that observes
readiness (readiness first at poll `n` means exactly `n` polls), and
deterministically reports failure after exactly 10 polls when the channel
never appears. -/
theorem c5_poll_budget (env : AttachEnv) (pid : Int) (n : Nat)
    (hcreat : env.creatOk (primary_marker_path pid) = true ∨
      env.creatOk (tmp_marker_path pid) = true) :
    pollCount (start_attach_mechanism env pid).1 ≤ 10 ∧
    sleepOneCount (start_attach_mechanism env pid).1 =
      pollCount (start_attach_mechanism env pid).1 ∧
    (1 ≤ n → n ≤ 10 → env.socketReadyAt n = true →
      (∀ m, 1 ≤ m → m < n → env.socketReadyAt m = false) →
      (start_attach_mechanism env pid).2 = true ∧
      pollCount (start_attach_mechanism env pid).1 = n) ∧
    ((∀ m, env.socketReadyAt m = false) →
      (start_attach_mechanism env pid).2 = false ∧
      pollCount (start_attach_mechanism env pid).1 = 10) := by
  obtain ⟨pre, p, htr, hres, _, _, hpc, hsc⟩ := start_attach_split env pid hcreat
  have hcount : pollCount (start_attach_mechanism env pid).1 =
      pollCount (pollLoop env.socketReadyAt 1 10).1 := by
    rw [htr]; simp [hpc]
  have hsleep : sleepOneCount (start_attach_mechanism env pid).1 =
      sleepOneCount (pollLoop env.socketReadyAt 1 10).1 := by
    rw [htr]; simp [hsc]
  refine ⟨?_, ?_, ?_, ?_⟩
  · rw [hcount]; exact pollLoop_count_le env.socketReadyAt 10 1
  · rw [hcount, hsleep]; exact pollLoop_sleep_eq env.socketReadyAt 10 1
  · intro h1 h2 h3 h4
    have hf := pollLoop_spec_first env.socketReadyAt 10 1 n h1 (by omega) h3
      (fun m hm1 hm2 => h4 m hm1 hm2)
    exact ⟨by rw [hres]; exact hf.1, by rw [hcount, hf.2]; omega⟩
  · intro hnever
    have hf := pollLoop_spec_never env.socketReadyAt hnever 10 1 (by omega)
    exact ⟨by rw [hres]; exact hf.1, by rw [hcount]; exact hf.2⟩

/-- Claim C5 witness: channel first ready at the third poll means exactly
three polls and success. -/
theorem c5_poll_budget_witness :
    envC5w.creatOk (primary_marker_path 7) = true ∧
    (start_attach_mechanism envC5w 7).2 = true ∧
    pollCount (start_attach_mechanism envC5w 7).1 = 3 ∧
    pollCount (start_attach_mechanism envC5w 7).1 ≤ 10 := by
  have h := c5_poll_budget envC5w 7 3 (Or.inl rfl)
  have hm : ∀ m, 1 ≤ m → m < 3 → envC5w.socketReadyAt m = false := by
    intro m hm1 hm2
    show (m == 3) = false
    simp
    omega
  have h3 := h.2.2.1 (by decide) (by decide) (by decide) hm
  exact ⟨rfl, h3.1, h3.2, h.1⟩

/-- Claim C6: whenever marker creation succeeds (primary or fallback),
exactly one marker is created, and exactly one `unlink` of that same path
occurs, as the very last action before the Activator returns — on the
success and on the timeout path alike. -/
theorem c6_marker_lifecycle (env : AttachEnv) (pid : Int)
    (hcreat : env.creatOk (primary_marker_path pid) = true ∨
      env.creatOk (tmp_marker_path pid) = true) :
    ∃ p, createdOk (start_attach_mechanism env pid).1 = [p] ∧
      unlinkedPaths (start_attach_mechanism env pid).1 = [p] ∧
      ∃ pre, (start_attach_mechanism env pid).1 = pre ++ [OsEvent.unlink p] := by
  obtain ⟨pre, p, htr, _, hcre, hunl, _, _⟩ := start_attach_split env pid hcreat
  have hlp := pollLoop_no_marker_events env.socketReadyAt 10 1
  refine ⟨p, ?_, ?_, pre ++ (pollLoop env.socketReadyAt 1 10).1, ?_⟩
  · rw [htr]; simp [hcre, hlp.1]
  · rw [htr]; simp [hunl, hlp.2]
  · rw [htr]; simp

/-- Claim C6 witness: timeout path with the primary location creatable. -/
theorem c6_marker_lifecycle_witness :
    envC6w.creatOk (primary_marker_path 5) = true ∧
    ∃ p, createdOk (start_attach_mechanism envC6w 5).1 = [p] ∧
      unlinkedPaths (start_attach_mechanism envC6w 5).1 = [p] ∧
      ∃ pre, (start_attach_mechanism envC6w 5).1 = pre ++ [OsEvent.unlink p] :=
  ⟨rfl, c6_marker_lifecycle envC6w 5 (Or.inl rfl)⟩

/-- Claim C9: on every invocation that reaches a successful connection,
stdout is not the relayed response alone: it is the fixed line
`Connected to remove JVM\n` first, then the response bytes, then one
trailing newline. -/
theorem c9_stdout_framing (env : Env) (args : List String)
    (hlen : 3 ≤ args.length)
    (hatt : check_socket env.fs (atoi (args.getD 1 "")) = true ∨
      (start_attach_mechanism (attachEnvOf env) (atoi (args.getD 1 ""))).2 = true)
    (hconn : env.connectOk = true) :
    (jattach_main env args).stdout =
      strBytes "Connected to remove JVM\n" ++
        read_response env.readEvs env.stream ++ strBytes "\n" := by
  have h := jattach_main_connected env args hlen hatt hconn
  rw [h.1]
  rfl

/-- Claim C9 witness: live channel, two-chunk response `OK`. -/
theorem c9_stdout_framing_witness :
    3 ≤ (["jattach", "42", "properties"] : List String).length ∧
    check_socket envC9w.fs (atoi "42") = true ∧ envC9w.connectOk = true ∧
    (jattach_main envC9w ["jattach", "42", "properties"]).stdout =
      strBytes "Connected to remove JVM\n" ++
        read_response envC9w.readEvs envC9w.stream ++ strBytes "\n" :=
  ⟨by decide, by decide, by decide,
    c9_stdout_framing envC9w ["jattach", "42", "properties"] (by decide)
      (Or.inl (by decide)) (by decide)⟩

/-- Claim C10: when the target-identifier argument parses to 0 (e.g. a
non-numeric string) and no channel exists at the derived path, no
validation intervenes: the program still creates an activation marker and
delivers the activation signal addressed to identifier 0. -/
theorem c10_zero_pid_unchecked (env : Env) (args : List String)
    (hlen : 3 ≤ args.length)
    (hzero : atoi (args.getD 1 "") = 0)
    (hnochan : check_socket env.fs 0 = false)
    (hcreat : env.creatOk (primary_marker_path 0) = true ∨
      env.creatOk (tmp_marker_path 0) = true) :
    (∃ p, OsEvent.creat p true ∈ (jattach_main env args).events) ∧
    ∃ ok, OsEvent.kill 0 ok ∈ (jattach_main env args).events := by
  have hcs : check_socket env.fs (atoi (args.getD 1 "")) = false := by
    rw [hzero]; exact hnochan
  have hev := jattach_main_events env args hlen hcs
  rw [hzero] at hev
  have hmem := start_attach_events_mem (attachEnvOf env) 0 hcreat
  rw [hev]
  exact ⟨hmem.1, ⟨(attachEnvOf env).killOk, hmem.2⟩⟩

/-- Claim C10 witness: `atoi "abc" = 0`, and the invocation
`jattach abc load` against an empty filesystem creates a marker and
signals identifier 0. -/
theorem c10_zero_pid_unchecked_witness :
    atoi "abc" = 0 ∧ check_socket envC10w.fs 0 = false ∧
    ((∃ p, OsEvent.creat p true ∈
        (jattach_main envC10w ["jattach", "abc", "load"]).events) ∧
      ∃ ok, OsEvent.kill 0 ok ∈
        (jattach_main envC10w ["jattach", "abc", "load"]).events) :=
  ⟨by decide, by decide,
    c10_zero_pid_unchecked envC10w ["jattach", "abc", "load"] (by decide) (by decide)
      (by decide) (Or.inl rfl)⟩
